import Mathlib

/-!
Verification development for the Epic-Games-Claimer repository.

Shallow embedding of the claim orchestration core:
  - src/src/models.py      : ClaimStatus enum and the text-pattern constants
  - src/src/session_store.py : Session data model, is_valid / can_refresh,
                               to_dict / from_dict
  - src/src/api.py         : the browser checkout flow (_claim_via_playwright),
                             the final page classifier (_check_page_result),
                             and the ownership-verification loop in claim_game
  - src/src/claimer.py     : ClaimResult and the claim_all_games orchestrator

Python strings are Lean String values; page text is the lowercased combined
visible text exactly as produced by _get_page_text.  Wall-clock timestamps are
modelled as integer seconds, and the Python datetime parser
(datetime.fromisoformat, which may raise) is an explicit parameter
`parse : String -> Option Int` (none models a raised ValueError/TypeError).
Browser observations are oracles indexed by a discrete time counter that
advances by one at each page.wait_for_timeout call.
-/

/-- ClaimStatus enum from src/src/models.py (claimed / already_owned /
failed / rate_limited). -/
inductive ClaimStatus where
  | claimed
  | already_owned
  | failed
  | rate_limited
deriving DecidableEq, Repr

/-- Python substring membership `pat in hay` on the underlying character
lists: true when `pat` occurs as a contiguous substring of `hay`. -/
def containsList (pat : List Char) : List Char → Bool
  | [] => pat.isEmpty
  | c :: t => pat.isPrefixOf (c :: t) || containsList pat t

/-- Python `pat in s` for strings. -/
def strContains (s pat : String) : Bool :=
  containsList pat.data s.data

/-- Python str.lower(), character by character (the URLs it is applied to are
ASCII). -/
def strLower (s : String) : String :=
  String.mk (s.data.map Char.toLower)

/-- Python `any(pat in text for pat in pats)`. -/
def containsAny (text : String) (pats : List String) : Bool :=
  pats.any (fun pat => strContains text pat)

/-- ALREADY_OWNED_PATTERNS from src/src/models.py. -/
def ALREADY_OWNED_PATTERNS : List String :=
  ["you already own this",
   "already in your library",
   "já está na sua biblioteca",
   "você já possui",
   "item already owned",
   "you own this item",
   "na biblioteca"]

/-- SUCCESS_PATTERNS from src/src/models.py. -/
def SUCCESS_PATTERNS : List String :=
  ["thank you",
   "order complete",
   "purchase complete",
   "successfully",
   "compra concluída",
   "your order",
   "order confirmed"]

/-- RATE_LIMIT_PATTERNS from src/src/models.py. -/
def RATE_LIMIT_PATTERNS : List String :=
  ["aguarde 24 horas",
   "captcha.decline",
   "wait 24 hours",
   "não pode mais fazer download",
   "can no longer download"]

/-- CAPTCHA_KEYWORDS from src/src/models.py. -/
def CAPTCHA_KEYWORDS : List String :=
  ["verificação de segurança",
   "security check",
   "mais uma etapa",
   "complete a security",
   "hcaptcha",
   "selecione o item",
   "select the item"]

/-- The strong_keywords list local to EpicAPI._has_captcha (src/src/api.py,
lines 801-808): CAPTCHA_KEYWORDS without the weak "hcaptcha" marker. -/
def STRONG_CAPTCHA_KEYWORDS : List String :=
  ["verificação de segurança",
   "security check",
   "mais uma etapa",
   "complete a security",
   "selecione o item",
   "select the item"]

/-- Session dataclass from src/src/session_store.py.  The cookies dict is an
ordered association list, as Python dicts preserve insertion order. -/
structure Session where
  access_token : String := ""
  refresh_token : String := ""
  account_id : String := ""
  display_name : String := ""
  expires_at : String := ""
  refresh_expires_at : String := ""
  cookies : List (String × String) := []
deriving DecidableEq, Repr

/-- Session.is_valid from src/src/session_store.py.  `parse` models
datetime.fromisoformat on the Z-normalised string (none models a raised
ValueError/TypeError, caught by the except clause and mapped to False);
`now` models datetime.now(timezone.utc); 300 seconds is the 5-minute
buffer timedelta(minutes=5). -/
def Session.is_valid (parse : String → Option Int) (now : Int) (s : Session) : Bool :=
  if s.access_token = "" || s.expires_at = "" then false
  else
    match parse (s.expires_at.replace "Z" "+00:00") with
    | none => false
    | some expires => decide (now < expires - 300)

/-- Session.can_refresh from src/src/session_store.py: refresh token and
refresh expiry must be present, and now must be strictly before the parsed
refresh expiry (no buffer). -/
def Session.can_refresh (parse : String → Option Int) (now : Int) (s : Session) : Bool :=
  if s.refresh_token = "" || s.refresh_expires_at = "" then false
  else
    match parse (s.refresh_expires_at.replace "Z" "+00:00") with
    | none => false
    | some expires => decide (now < expires)

/-- A JSON-ish value as stored in the session dictionary: every Session field
is a string except the cookies mapping. -/
inductive JValue where
  | str (s : String)
  | table (m : List (String × String))
deriving DecidableEq, Repr

/-- Session.to_dict from src/src/session_store.py: dataclasses.asdict, whose
keys follow field declaration order. -/
def Session.to_dict (s : Session) : List (String × JValue) :=
  [("access_token", JValue.str s.access_token),
   ("refresh_token", JValue.str s.refresh_token),
   ("account_id", JValue.str s.account_id),
   ("display_name", JValue.str s.display_name),
   ("expires_at", JValue.str s.expires_at),
   ("refresh_expires_at", JValue.str s.refresh_expires_at),
   ("cookies", JValue.table s.cookies)]

/-- Python dict.get(key, default) for a string-valued field. -/
def dictGetStr (d : List (String × JValue)) (key dflt : String) : String :=
  match d.lookup key with
  | some (JValue.str v) => v
  | _ => dflt

/-- Python dict.get(key, default) for the cookies mapping. -/
def dictGetTable (d : List (String × JValue)) (key : String)
    (dflt : List (String × String)) : List (String × String) :=
  match d.lookup key with
  | some (JValue.table m) => m
  | _ => dflt

/-- Session.from_dict from src/src/session_store.py: reads each field with
data.get(field, default). -/
def Session.from_dict (d : List (String × JValue)) : Session :=
  { access_token := dictGetStr d "access_token" ""
  , refresh_token := dictGetStr d "refresh_token" ""
  , account_id := dictGetStr d "account_id" ""
  , display_name := dictGetStr d "display_name" ""
  , expires_at := dictGetStr d "expires_at" ""
  , refresh_expires_at := dictGetStr d "refresh_expires_at" ""
  , cookies := dictGetTable d "cookies" [] }

/-- EpicAPI._check_page_result from src/src/api.py (lines 870-913): classify
the final page state from the current URL and the combined visible text. -/
def check_page_result (finalUrl text : String) : ClaimStatus :=
  if containsAny text RATE_LIMIT_PATTERNS then ClaimStatus.rate_limited
  else if strContains finalUrl "receipt" || strContains finalUrl "confirmation"
       || strContains finalUrl "#/purchase/success" then ClaimStatus.claimed
  else
    let has_success := containsAny text SUCCESS_PATTERNS
    let has_already_owned := containsAny text ALREADY_OWNED_PATTERNS
    if has_success && has_already_owned then ClaimStatus.claimed
    else if has_success then ClaimStatus.claimed
    else if has_already_owned then ClaimStatus.already_owned
    else if strContains text "invalid_offers_code_redemption_only" then ClaimStatus.failed
    else ClaimStatus.failed

/-- The text/URL classification performed in each iteration of the
checkout-button polling loop of _claim_via_playwright (src/src/api.py,
lines 1082-1103), reached when the checkout button was not found: strong
already-owned text wins, then a purchase URL or a changed URL with success
text; rate-limit patterns are not consulted here. -/
def checkoutPollClassify (originalUrl url text : String) : Option ClaimStatus :=
  if containsAny text ALREADY_OWNED_PATTERNS then some ClaimStatus.already_owned
  else if containsAny url ["receipt", "confirmation", "purchase/success"]
       || (url != originalUrl && containsAny text SUCCESS_PATTERNS) then
    some ClaimStatus.claimed
  else none

/-- The text classification performed in each iteration of the direct
purchase-page fallback loop of _claim_via_playwright (src/src/api.py,
lines 1148-1160): already-owned text, then success text; rate-limit
patterns are not consulted here. -/
def directPurchaseClassify (text : String) : Option ClaimStatus :=
  if containsAny text ALREADY_OWNED_PATTERNS then some ClaimStatus.already_owned
  else if containsAny text SUCCESS_PATTERNS then some ClaimStatus.claimed
  else none

/-- The classification after an unresolved CAPTCHA wait in
_claim_via_playwright (src/src/api.py, lines 1228-1232): rate-limit text
gives RATE_LIMITED, anything else FAILED. -/
def postCaptchaFailureStatus (text : String) : ClaimStatus :=
  if containsAny text RATE_LIMIT_PATTERNS then ClaimStatus.rate_limited
  else ClaimStatus.failed

/-- One observation of the browser page: the current URL and the lowercased
combined visible text of all frames (EpicAPI._get_page_text). -/
structure PageView where
  url : String
  text : String
deriving DecidableEq, Repr

/-- Oracle for the browser during one _claim_via_playwright invocation.  Each
field is indexed by a discrete time counter that advances by one tick per
page.wait_for_timeout call.  `nav` is the outcome of a page.goto call
(error models a raised navigation exception, which only the outermost
try/except handles).  Button/click/CAPTCHA observations are booleans because
the corresponding Python helpers swallow their own exceptions and return a
found/not-found (or success/failure) signal. -/
structure FlowEnv where
  page : Nat → PageView
  nav : Nat → Except String Unit
  claimButtonFound : Nat → Bool
  claimClickOk : Nat → Bool
  checkoutFound : Nat → Bool
  captchaSelectorVisible : Nat → Bool
  captchaChallengeFrame : Nat → Bool
  captchaTokenFilled : Nat → Bool
  captchaChallengeHidden : Nat → Bool

/-- The product/purchase URL built at the top of _claim_via_playwright
(src/src/api.py, lines 953-962). -/
def product_url (locale ns offerId slug : String) : String :=
  if slug != "" then
    "https://store.epicgames.com/" ++ locale.replace "_" "-" ++ "/p/" ++ slug
  else
    "https://www.epicgames.com/store/purchase?offers=1-" ++ ns ++ "-" ++ offerId

/-- EpicAPI._has_captcha (src/src/api.py, lines 777-809): a visible hCaptcha
selector, a challenge iframe, or a strong CAPTCHA keyword in the visible
text. -/
def has_captcha (env : FlowEnv) (t : Nat) : Bool :=
  env.captchaSelectorVisible t || env.captchaChallengeFrame t
    || containsAny (env.page t).text STRONG_CAPTCHA_KEYWORDS

/-- The manual-login wait loop of _claim_via_playwright (40 iterations of a
3s wait, checking whether the URL still contains "login"; a final settle
wait on success).  Returns the time after login completes, or none on
timeout (which the caller maps to FAILED). -/
def loginWaitLoop (env : FlowEnv) (t : Nat) : Nat → Option Nat
  | 0 => none
  | fuel + 1 =>
    let t1 := t + 1
    if strContains (strLower (env.page t1).url) "login" = false then some (t1 + 1)
    else loginWaitLoop env t1 fuel

/-- EpicAPI._wait_for_captcha_resolution (src/src/api.py, lines 811-868):
poll until the response token is filled, the challenge iframe hides, or the
CAPTCHA keywords disappear (resolved); a rate-limit pattern aborts the wait
unresolved; fuel models the configured timeout.  Returns (resolved, time). -/
def captchaWaitLoop (env : FlowEnv) (t : Nat) : Nat → Bool × Nat
  | 0 => (false, t)
  | fuel + 1 =>
    if env.captchaTokenFilled t then (true, t)
    else if env.captchaChallengeHidden t then (true, t)
    else
      let txt := (env.page t).text
      if containsAny txt CAPTCHA_KEYWORDS = false then (true, t)
      else if containsAny txt RATE_LIMIT_PATTERNS then (false, t)
      else captchaWaitLoop env (t + 1) fuel

/-- Result of a bounded button-polling loop: the button was found at time t,
the loop returned a definite status, or the loop exhausted its retries. -/
inductive PollResult where
  | found (t : Nat)
  | res (s : ClaimStatus)
  | notFound (t : Nat)
deriving DecidableEq, Repr

/-- The checkout-button polling loop of _claim_via_playwright
(src/src/api.py, lines 1067-1127): up to 10 retries; on each iteration the
age gate is re-handled (a page mutation, already reflected in the page
oracle), the checkout button is searched, then the page is classified
(checkoutPollClassify), then a login redirect triggers the manual-login
wait. -/
def checkoutPollLoop (env : FlowEnv) (originalUrl : String) (t : Nat) : Nat → PollResult
  | 0 => PollResult.notFound t
  | fuel + 1 =>
    if env.checkoutFound t then PollResult.found t
    else
      let txt := (env.page t).text
      let url := (env.page t).url
      match checkoutPollClassify originalUrl url txt with
      | some s => PollResult.res s
      | none =>
        if strContains (strLower url) "login" || strContains (strLower url) "id/login" then
          match loginWaitLoop env t 40 with
          | none => PollResult.res ClaimStatus.failed
          | some t2 => checkoutPollLoop env originalUrl t2 fuel
        else checkoutPollLoop env originalUrl (t + 1) fuel

/-- The direct purchase-page fallback loop of _claim_via_playwright
(src/src/api.py, lines 1148-1169): up to 8 retries looking for the checkout
button, classifying the page text (directPurchaseClassify) in between. -/
def directPurchaseLoop (env : FlowEnv) (t : Nat) : Nat → PollResult
  | 0 => PollResult.notFound t
  | fuel + 1 =>
    if env.checkoutFound t then PollResult.found t
    else
      match directPurchaseClassify (env.page t).text with
      | some s => PollResult.res s
      | none => directPurchaseLoop env (t + 1) fuel

/-- The checkout-confirmation stage of _claim_via_playwright
(src/src/api.py, lines 1194-1264): click Place Order (click failures are
logged, not fatal), settle, classify; on a visible CAPTCHA wait for
resolution, re-classify, optionally nudge the checkout button once more;
finish with _check_page_result. -/
def flowCheckoutStage (env : FlowEnv) (captchaFuel : Nat) (t : Nat) :
    Except String ClaimStatus :=
  let t1 := t + 1
  let r := check_page_result (env.page t1).url (env.page t1).text
  if r = ClaimStatus.claimed || r = ClaimStatus.already_owned then Except.ok r
  else if has_captcha env t1 then
    match captchaWaitLoop env t1 captchaFuel with
    | (false, t2) => Except.ok (postCaptchaFailureStatus (env.page t2).text)
    | (true, t2) =>
      let t3 := t2 + 1
      let r2 := check_page_result (env.page t3).url (env.page t3).text
      if r2 = ClaimStatus.claimed || r2 = ClaimStatus.already_owned then Except.ok r2
      else
        let t4 := if env.checkoutFound t3 then t3 + 1 else t3
        Except.ok (check_page_result (env.page t4).url (env.page t4).text)
  else
    let t2 := t1 + 1
    Except.ok (check_page_result (env.page t2).url (env.page t2).text)

/-- The direct purchase-URL fallback stage of _claim_via_playwright
(src/src/api.py, lines 1129-1192): navigate to the constructed purchase URL,
run the fallback polling loop; if the button still is not found, fall through
to the final _check_page_result classification. -/
def flowDirectPurchase (env : FlowEnv) (captchaFuel : Nat) (t : Nat) :
    Except String ClaimStatus :=
  match env.nav t with
  | Except.error e => Except.error e
  | Except.ok _ =>
    let t1 := t + 1
    match directPurchaseLoop env t1 8 with
    | PollResult.res s => Except.ok s
    | PollResult.found t2 => flowCheckoutStage env captchaFuel t2
    | PollResult.notFound t2 =>
      Except.ok (check_page_result (env.page t2).url (env.page t2).text)

/-- The claim-button stage of _claim_via_playwright (src/src/api.py,
lines 1028-1127): find the Get button (not found, or all four click
strategies failing, aborts with FAILED), then run the checkout polling
loop. -/
def flowClickClaim (env : FlowEnv) (captchaFuel : Nat) (t : Nat) :
    Except String ClaimStatus :=
  if env.claimButtonFound t = false then Except.ok ClaimStatus.failed
  else
    let t1 := t + 1
    if env.claimClickOk t1 = false then Except.ok ClaimStatus.failed
    else
      let t2 := t1 + 1
      let originalUrl := (env.page t2).url
      match checkoutPollLoop env originalUrl t2 10 with
      | PollResult.res s => Except.ok s
      | PollResult.found t3 => flowCheckoutStage env captchaFuel t3
      | PollResult.notFound t3 => flowDirectPurchase env captchaFuel t3

/-- The offer-page stage of _claim_via_playwright (src/src/api.py,
lines 1001-1026): open the product page; a login redirect, or
code-redemption-only text, aborts with FAILED; already-owned text returns
ALREADY_OWNED; the age gate is handled (a page mutation only). -/
def flowOpenOfferPage (env : FlowEnv) (captchaFuel : Nat) (t : Nat) :
    Except String ClaimStatus :=
  match env.nav t with
  | Except.error e => Except.error e
  | Except.ok _ =>
    let t1 := t + 1
    let currentUrl := (env.page t1).url
    if strContains (strLower currentUrl) "login" then Except.ok ClaimStatus.failed
    else
      let visibleText := (env.page t1).text
      if strContains visibleText "invalid_offers_code_redemption_only" then
        Except.ok ClaimStatus.failed
      else if containsAny visibleText ALREADY_OWNED_PATTERNS then
        Except.ok ClaimStatus.already_owned
      else flowClickClaim env captchaFuel t1

/-- The body of _claim_via_playwright (src/src/api.py, lines 966-1264),
inside the outermost try: establish the session at the store root (waiting
for a manual login if redirected), then the offer-page stage.  An error value
models an exception escaping to the outermost except clause. -/
def flowBody (env : FlowEnv) (captchaFuel : Nat) : Except String ClaimStatus :=
  match env.nav 0 with
  | Except.error e => Except.error e
  | Except.ok _ =>
    let t1 := 1
    let storeUrl := (env.page t1).url
    if strContains (strLower storeUrl) "login" || strContains (strLower storeUrl) "id/login" then
      match loginWaitLoop env t1 40 with
      | none => Except.ok ClaimStatus.failed
      | some t2 => flowOpenOfferPage env captchaFuel t2
    else flowOpenOfferPage env captchaFuel t1

/-- EpicAPI._claim_via_playwright (src/src/api.py, lines 924-1270): the whole
browser flow runs inside try/except Exception, and any escaping exception is
caught at this boundary and mapped to FAILED. -/
def claim_via_playwright (env : FlowEnv) (captchaFuel : Nat) : ClaimStatus :=
  match flowBody env captchaFuel with
  | Except.ok s => s
  | Except.error _ => ClaimStatus.failed

/-- Statistics of one run of the ownership-verification loop. -/
structure VerifyRun where
  found : Bool
  attempts : Nat
  sleepSeconds : Nat
deriving DecidableEq, Repr

/-- The ownership-verification polling loop in EpicAPI.claim_game
(src/src/api.py, lines 604-616): for attempt in range(1, 11), fetch the
owned games and test namespace membership (`ownedAt attempt`, an error
models an exception raised while fetching); return on the first hit,
otherwise sleep 3 seconds and continue.  Called with fuel 10. -/
def verifyGo (ownedAt : Nat → Except String Bool) (attempt : Nat) :
    Nat → Except String VerifyRun
  | 0 => Except.ok { found := false, attempts := 0, sleepSeconds := 0 }
  | fuel + 1 =>
    match ownedAt attempt with
    | Except.error e => Except.error e
    | Except.ok true => Except.ok { found := true, attempts := 1, sleepSeconds := 0 }
    | Except.ok false =>
      match verifyGo ownedAt (attempt + 1) fuel with
      | Except.error e => Except.error e
      | Except.ok r =>
        Except.ok { found := r.found, attempts := r.attempts + 1
                  , sleepSeconds := r.sleepSeconds + 3 }

/-- EpicAPI.claim_game (src/src/api.py, lines 581-627): run the browser flow;
when it reports CLAIMED, verify via the entitlements loop (up to 10 attempts,
3s apart) and demote to FAILED when verification does not confirm or raises;
other statuses pass through unchanged. -/
def claim_game (env : FlowEnv) (captchaFuel : Nat)
    (ownedAt : Nat → Except String Bool) : ClaimStatus :=
  let status := claim_via_playwright env captchaFuel
  if status = ClaimStatus.claimed then
    match verifyGo ownedAt 1 10 with
    | Except.error _ => ClaimStatus.failed
    | Except.ok r => if r.found then ClaimStatus.claimed else ClaimStatus.failed
  else status

/-- A claimable game dictionary as consumed by claim_all_games
(title, id, namespace, slug). -/
structure Game where
  title : String
  id : String
  ns : String
  slug : String
deriving DecidableEq, Repr

/-- ClaimResult dataclass from src/src/claimer.py (lines 22-29). -/
structure ClaimResult where
  claimed : Nat := 0
  failed : Nat := 0
  already_owned : Nat := 0
  games_processed : List String := []
deriving DecidableEq, Repr

/-- Trace record for one iteration of the claim loop: the offer attempted
(exactly one claim_game / state-machine invocation per record), the status it
returned, the sessions passed to SessionStore.save during the iteration, and
the orchestrator session in effect before and after the iteration. -/
structure OfferStep where
  title : String
  status : ClaimStatus
  saves : List Session
  sessionBefore : Session
  sessionAfter : Session
deriving DecidableEq, Repr

/-- Environment of one claim_all_games run.  `claimable` is the list returned
by get_claimable_games (offer discovery plus ownership filtering, external to
the orchestrator); `outcome i` is the ClaimStatus that api.claim_game returns
for the i-th attempted offer; `refreshResult i` is the combined result of
api.refresh_token plus _update_session at the i-th offer (none models a
failed refresh); `parse`/`now` feed Session.can_refresh. -/
structure OrchEnv where
  claimable : List Game
  outcome : Nat → ClaimStatus
  refreshResult : Nat → Option Session
  parse : String → Option Int
  now : Int

/-- The per-offer loop of EpicGamesClaimer.claim_all_games (src/src/claimer.py,
lines 364-406): append the title to games_processed, invoke the state machine,
then dispatch on the status — CLAIMED and ALREADY_OWNED bump their counters;
RATE_LIMITED bumps failed and breaks out of the loop; any other status (FAILED)
bumps failed and, when the session can be refreshed and the refresh succeeds,
replaces the session and saves it once before the next offer.  The inter-offer
sleep is a pure delay and is not modelled.  Returns the final ClaimResult and
the per-offer trace. -/
def claimLoop (env : OrchEnv) (sess : Session) (gs : List Game) (i : Nat)
    (res : ClaimResult) : ClaimResult × List OfferStep :=
  match gs with
  | [] => (res, [])
  | g :: rest =>
    let res1 : ClaimResult :=
      { res with games_processed := res.games_processed ++ [g.title] }
    match env.outcome i with
    | ClaimStatus.claimed =>
      let r := claimLoop env sess rest (i + 1) { res1 with claimed := res1.claimed + 1 }
      (r.1, { title := g.title, status := ClaimStatus.claimed, saves := []
            , sessionBefore := sess, sessionAfter := sess } :: r.2)
    | ClaimStatus.already_owned =>
      let r := claimLoop env sess rest (i + 1)
        { res1 with already_owned := res1.already_owned + 1 }
      (r.1, { title := g.title, status := ClaimStatus.already_owned, saves := []
            , sessionBefore := sess, sessionAfter := sess } :: r.2)
    | ClaimStatus.rate_limited =>
      ({ res1 with failed := res1.failed + 1 },
       [{ title := g.title, status := ClaimStatus.rate_limited, saves := []
        , sessionBefore := sess, sessionAfter := sess }])
    | ClaimStatus.failed =>
      let canR := Session.can_refresh env.parse env.now sess
      let next := if canR then (env.refreshResult i).getD sess else sess
      let saved := if canR then (env.refreshResult i).toList else []
      let r := claimLoop env next rest (i + 1) { res1 with failed := res1.failed + 1 }
      (r.1, { title := g.title, status := ClaimStatus.failed, saves := saved
            , sessionBefore := sess, sessionAfter := next } :: r.2)

/-- EpicGamesClaimer.claim_all_games (src/src/claimer.py, lines 343-406): a
missing session (`if not self.session`) or an empty claimable list returns the
zero-initialised ClaimResult without entering the loop; otherwise the loop
runs over the claimable games. -/
def claim_all_games (env : OrchEnv) (sessOpt : Option Session) :
    ClaimResult × List OfferStep :=
  match sessOpt with
  | none => ({}, [])
  | some s =>
    match env.claimable with
    | [] => ({}, [])
    | g :: rest => claimLoop env s (g :: rest) 0 {}

/-- Number of offers among positions i, i+1, ..., i+j-1 whose state-machine
outcome is FAILED. -/
def countFailed (env : OrchEnv) (i j : Nat) : Nat :=
  match j with
  | 0 => 0
  | j + 1 => (if env.outcome i = ClaimStatus.failed then 1 else 0) + countFailed env (i + 1) j

/-- A page text containing both an already-owned pattern ("você já possui")
and a rate-limit pattern ("aguarde 24 horas"). -/
def ownedAndRateLimitedText : String :=
  "você já possui este item. aguarde 24 horas."

/-- Browser oracle sitting on a purchase page whose visible text contains both
an already-owned and a rate-limit pattern, with no checkout button. -/
def c4Env : FlowEnv :=
  { page := fun _ => { url := "https://www.epicgames.com/store/purchase", text := ownedAndRateLimitedText }
  , nav := fun _ => Except.ok ()
  , claimButtonFound := fun _ => false
  , claimClickOk := fun _ => false
  , checkoutFound := fun _ => false
  , captchaSelectorVisible := fun _ => false
  , captchaChallengeFrame := fun _ => false
  , captchaTokenFilled := fun _ => false
  , captchaChallengeHidden := fun _ => false }

/-- Browser oracle for a run where the claim click lands directly on a receipt
URL: the checkout polling loop classifies it as a completed order. -/
def c2Env : FlowEnv :=
  { page := fun _ => { url := "https://store.epicgames.com/receipt", text := "ok" }
  , nav := fun _ => Except.ok ()
  , claimButtonFound := fun _ => true
  , claimClickOk := fun _ => true
  , checkoutFound := fun _ => false
  , captchaSelectorVisible := fun _ => false
  , captchaChallengeFrame := fun _ => false
  , captchaTokenFilled := fun _ => false
  , captchaChallengeHidden := fun _ => false }

/-- Browser oracle whose very first navigation raises. -/
def c8Env : FlowEnv :=
  { page := fun _ => { url := "https://store.epicgames.com/", text := "" }
  , nav := fun _ => Except.error "TimeoutError: navigation"
  , claimButtonFound := fun _ => false
  , claimClickOk := fun _ => false
  , checkoutFound := fun _ => false
  , captchaSelectorVisible := fun _ => false
  , captchaChallengeFrame := fun _ => false
  , captchaTokenFilled := fun _ => false
  , captchaChallengeHidden := fun _ => false }

/-- First sample claimable game. -/
def gameA : Game := { title := "Game A", id := "a1", ns := "nsa", slug := "game-a" }

/-- Second sample claimable game. -/
def gameB : Game := { title := "Game B", id := "b1", ns := "nsb", slug := "game-b" }

/-- Orchestrator environment for the rate-limit scenario: two claimable
offers, the first one rate-limited. -/
def c1Env : OrchEnv :=
  { claimable := [gameA, gameB]
  , outcome := fun i => if i = 0 then ClaimStatus.rate_limited else ClaimStatus.claimed
  , refreshResult := fun _ => none
  , parse := fun _ => none
  , now := 0 }

/-- A session with an access token but an empty expiry string: never usable
according to Session.is_valid. -/
def c5Sess : Session := { access_token := "tok" }

/-- Orchestrator environment with one claimable offer whose claim succeeds. -/
def c5Env : OrchEnv :=
  { claimable := [gameA]
  , outcome := fun _ => ClaimStatus.claimed
  , refreshResult := fun _ => none
  , parse := fun _ => none
  , now := 0 }

/-- Orchestrator environment with no claimable offers. -/
def c5EmptyEnv : OrchEnv :=
  { claimable := []
  , outcome := fun _ => ClaimStatus.claimed
  , refreshResult := fun _ => none
  , parse := fun _ => none
  , now := 0 }

/-- The refreshed session produced by refresh_token plus _update_session in
the mid-run refresh scenario. -/
def c7NewSess : Session := { access_token := "newtok", refresh_token := "newref" }

/-- A refreshable session: refresh token and refresh expiry present. -/
def c7Sess : Session :=
  { access_token := "oldtok", refresh_token := "ref", refresh_expires_at := "later" }

/-- Orchestrator environment for the mid-run refresh scenario: the first offer
fails, the refresh succeeds, the second offer is claimed. -/
def c7Env : OrchEnv :=
  { claimable := [gameA, gameB]
  , outcome := fun i => if i = 0 then ClaimStatus.failed else ClaimStatus.claimed
  , refreshResult := fun _ => some c7NewSess
  , parse := fun _ => some 1000
  , now := 0 }

/-- Orchestrator environment where the first offer is claimed and the second
is already owned. -/
def c9Env : OrchEnv :=
  { claimable := [gameA, gameB]
  , outcome := fun i => if i = 0 then ClaimStatus.claimed else ClaimStatus.already_owned
  , refreshResult := fun _ => none
  , parse := fun _ => none
  , now := 0 }


/-- Expected result of the rate-limit scenario run. -/
def c1Res : ClaimResult :=
  { claimed := 0, failed := 1, already_owned := 0, games_processed := ["Game A"] }

/-- Expected single trace record of the rate-limit scenario run. -/
def c1St : OfferStep :=
  { title := "Game A", status := ClaimStatus.rate_limited, saves := []
  , sessionBefore := {}, sessionAfter := {} }

/-- Expected result of the mid-run refresh scenario. -/
def c7Res : ClaimResult :=
  { claimed := 1, failed := 1, already_owned := 0
  , games_processed := ["Game A", "Game B"] }

/-- Expected first trace record of the mid-run refresh scenario: the failed
offer, with exactly one save of the refreshed session. -/
def c7St0 : OfferStep :=
  { title := "Game A", status := ClaimStatus.failed, saves := [c7NewSess]
  , sessionBefore := c7Sess, sessionAfter := c7NewSess }

/-- Expected second trace record of the mid-run refresh scenario: the next
offer runs under the refreshed session. -/
def c7St1 : OfferStep :=
  { title := "Game B", status := ClaimStatus.claimed, saves := []
  , sessionBefore := c7NewSess, sessionAfter := c7NewSess }

/-- Expected result of the claimed-plus-already-owned scenario. -/
def c9Res : ClaimResult :=
  { claimed := 1, failed := 0, already_owned := 1
  , games_processed := ["Game A", "Game B"] }

/-- Expected trace of the claimed-plus-already-owned scenario. -/
def c9Steps : List OfferStep :=
  [{ title := "Game A", status := ClaimStatus.claimed, saves := []
   , sessionBefore := {}, sessionAfter := {} },
   { title := "Game B", status := ClaimStatus.already_owned, saves := []
   , sessionBefore := {}, sessionAfter := {} }]


/-- Characterisation of the ownership-verification loop when no fetch raises:
it always terminates with a run record; attempts never exceed the fuel; it
finds iff some attempt in the window has the namespace owned; a miss-only run
uses all attempts with a 3-second sleep after each; a hit sleeps 3 seconds
per miss before the hit. -/
theorem verifyGo_total_spec : ∀ (fuel a : Nat) (g : Nat → Bool),
    ∃ r, verifyGo (fun k => Except.ok (g k)) a fuel = Except.ok r ∧
      r.attempts ≤ fuel ∧
      (r.found = true ↔ ∃ k, a ≤ k ∧ k < a + fuel ∧ g k = true) ∧
      (r.found = true → 1 ≤ r.attempts ∧ r.sleepSeconds = 3 * (r.attempts - 1)) ∧
      (r.found = false → r.attempts = fuel ∧ r.sleepSeconds = 3 * fuel) := by
  intro fuel
  induction fuel with
  | zero =>
    intro a g
    refine ⟨{ found := false, attempts := 0, sleepSeconds := 0 }, rfl, Nat.le_refl _, ?_, ?_, ?_⟩
    · show false = true ↔ ∃ k, a ≤ k ∧ k < a + 0 ∧ g k = true
      constructor
      · intro h
        cases h
      · rintro ⟨k, h1, h2, _⟩
        omega
    · intro h
      cases h
    · intro _
      exact ⟨rfl, rfl⟩
  | succ n ih =>
    intro a g
    cases hg : g a with
    | true =>
      refine ⟨{ found := true, attempts := 1, sleepSeconds := 0 }, ?_, ?_, ?_, ?_, ?_⟩
      · simp [verifyGo, hg]
      · show 1 ≤ n + 1
        omega
      · show true = true ↔ ∃ k, a ≤ k ∧ k < a + (n + 1) ∧ g k = true
        constructor
        · intro _
          exact ⟨a, Nat.le_refl _, by omega, hg⟩
        · intro _
          rfl
      · intro _
        exact ⟨Nat.le_refl _, rfl⟩
      · intro h
        cases h
    | false =>
      obtain ⟨r, hr, hle, hiff, hft, hff⟩ := ih (a + 1) g
      refine ⟨{ found := r.found, attempts := r.attempts + 1
              , sleepSeconds := r.sleepSeconds + 3 }, ?_, ?_, ?_, ?_, ?_⟩
      · simp [verifyGo, hg, hr]
      · show r.attempts + 1 ≤ n + 1
        omega
      · show r.found = true ↔ ∃ k, a ≤ k ∧ k < a + (n + 1) ∧ g k = true
        rw [hiff]
        constructor
        · rintro ⟨k, h1, h2, h3⟩
          exact ⟨k, by omega, by omega, h3⟩
        · rintro ⟨k, h1, h2, h3⟩
          refine ⟨k, ?_, by omega, h3⟩
          rcases Nat.eq_or_lt_of_le h1 with h | h
          · rw [← h, hg] at h3
            cases h3
          · omega
      · intro h
        have h2 : r.found = true := h
        obtain ⟨ha1, ha2⟩ := hft h2
        constructor
        · show 1 ≤ r.attempts + 1
          omega
        · show r.sleepSeconds + 3 = 3 * (r.attempts + 1 - 1)
          omega
      · intro h
        have h2 : r.found = false := h
        obtain ⟨ha1, ha2⟩ := hff h2
        constructor
        · show r.attempts + 1 = n + 1
          omega
        · show r.sleepSeconds + 3 = 3 * (n + 1)
          omega

/-- C2: when the browser state machine reports Claimed, claim_game runs the
ownership verifier for up to exactly 10 attempts (3 seconds of sleep after
each miss), the final outcome is Claimed iff some attempt (1..10) finds the
namespace in the owned set, and the outcome is demoted to Failed when all 10
attempts miss. -/
theorem C2_claimed_verified_by_bounded_poll :
    ∀ (env : FlowEnv) (cf : Nat) (g : Nat → Bool),
    claim_via_playwright env cf = ClaimStatus.claimed →
    ((claim_game env cf (fun k => Except.ok (g k)) = ClaimStatus.claimed ↔
        ∃ k, 1 ≤ k ∧ k ≤ 10 ∧ g k = true) ∧
     ((∀ k, 1 ≤ k → k ≤ 10 → g k = false) →
        claim_game env cf (fun k => Except.ok (g k)) = ClaimStatus.failed) ∧
     (∃ r, verifyGo (fun k => Except.ok (g k)) 1 10 = Except.ok r ∧
        r.attempts ≤ 10 ∧
        (r.found = false → r.attempts = 10 ∧ r.sleepSeconds = 30) ∧
        (r.found = true → r.sleepSeconds = 3 * (r.attempts - 1)))) := by
  intro env cf g hclaimed
  obtain ⟨r, hr, hle, hiff, hft, hff⟩ := verifyGo_total_spec 10 1 g
  have hcg : claim_game env cf (fun k => Except.ok (g k))
      = (if r.found then ClaimStatus.claimed else ClaimStatus.failed) := by
    simp [claim_game, hclaimed, hr]
  refine ⟨?_, ?_, ?_⟩
  · rw [hcg]
    cases hf : r.found with
    | true =>
      simp only [if_pos rfl]
      constructor
      · intro _
        obtain ⟨k, h1, h2, h3⟩ := hiff.mp hf
        exact ⟨k, h1, by omega, h3⟩
      · intro _
        rfl
    | false =>
      simp only [Bool.false_eq_true, if_neg]
      constructor
      · intro h
        cases h
      · rintro ⟨k, h1, h2, h3⟩
        have htrue : r.found = true := hiff.mpr ⟨k, h1, by omega, h3⟩
        rw [hf] at htrue
        cases htrue
  · intro hall
    have hfound : r.found = false := by
      cases hf : r.found with
      | false => rfl
      | true =>
        obtain ⟨k, h1, h2, h3⟩ := hiff.mp hf
        have hk := hall k h1 (by omega)
        rw [hk] at h3
        cases h3
    rw [hcg, hfound]
    simp
  · refine ⟨r, hr, hle, ?_, ?_⟩
    · intro h
      obtain ⟨h1, h2⟩ := hff h
      exact ⟨h1, by omega⟩
    · intro h
      exact (hft h).2

/-- Witness for C2: a run whose browser flow lands on a receipt URL and is
classified Claimed; the verifier confirms at attempt 2, so the outcome is
Claimed; when every attempt misses, the outcome is demoted to Failed. -/
theorem C2_claimed_verified_by_bounded_poll_witness :
    claim_via_playwright c2Env 5 = ClaimStatus.claimed ∧
    claim_game c2Env 5 (fun k => Except.ok (decide (k = 2))) = ClaimStatus.claimed ∧
    claim_game c2Env 5 (fun _ => Except.ok false) = ClaimStatus.failed :=
  ⟨by decide,
   (C2_claimed_verified_by_bounded_poll c2Env 5 (fun k => decide (k = 2))
     (by decide)).1.mpr ⟨2, by decide, by decide, by decide⟩,
   (C2_claimed_verified_by_bounded_poll c2Env 5 (fun _ => false)
     (by decide)).2.1 (fun _ _ _ => rfl)⟩

/-- C3: in the final-state classifier, a page whose visible text matches both
a success pattern and an already-owned pattern, with no rate-limit pattern,
resolves to Claimed (never AlreadyOwned), whatever the URL is. -/
theorem C3_success_and_owned_resolves_claimed : ∀ (url text : String),
    containsAny text SUCCESS_PATTERNS = true →
    containsAny text ALREADY_OWNED_PATTERNS = true →
    containsAny text RATE_LIMIT_PATTERNS = false →
    check_page_result url text = ClaimStatus.claimed := by
  intro url text hs ho hr
  unfold check_page_result
  simp [hr, hs, ho]

/-- Witness for C3: a concrete confirmation-page text matching both a success
and an already-owned pattern is classified Claimed. -/
theorem C3_success_and_owned_resolves_claimed_witness :
    containsAny "thank you, the game is now na biblioteca" SUCCESS_PATTERNS = true ∧
    containsAny "thank you, the game is now na biblioteca" ALREADY_OWNED_PATTERNS = true ∧
    containsAny "thank you, the game is now na biblioteca" RATE_LIMIT_PATTERNS = false ∧
    check_page_result "https://store.epicgames.com/p/game-a"
      "thank you, the game is now na biblioteca" = ClaimStatus.claimed :=
  ⟨by decide, by decide, by decide,
   C3_success_and_owned_resolves_claimed "https://store.epicgames.com/p/game-a"
     "thank you, the game is now na biblioteca" (by decide) (by decide) (by decide)⟩

/-- Counterexample to C4: the checkout-button polling loop and the direct
purchase-page fallback loop classify page text without consulting
RATE_LIMIT_PATTERNS.  On a page whose text contains both an already-owned
pattern and a rate-limit pattern, both loops return AlreadyOwned, not
RateLimited. -/
theorem C4_counterexample :
    containsAny ownedAndRateLimitedText RATE_LIMIT_PATTERNS = true ∧
    checkoutPollClassify "https://store.epicgames.com/p/game-a"
      "https://store.epicgames.com/p/game-a" ownedAndRateLimitedText
      = some ClaimStatus.already_owned ∧
    directPurchaseClassify ownedAndRateLimitedText = some ClaimStatus.already_owned ∧
    directPurchaseLoop c4Env 0 8 = PollResult.res ClaimStatus.already_owned ∧
    directPurchaseLoop c4Env 0 8 ≠ PollResult.res ClaimStatus.rate_limited := by
  decide

/-- C4 (amended): rate-limit text forces the RateLimited outcome in the
final-state classifier and in the post-CAPTCHA failure check, regardless of
any success or already-owned signal; the checkout-button polling loop and the
direct-purchase fallback loop do not consult rate-limit patterns and may
return AlreadyOwned or Claimed even when rate-limit text is present. -/
theorem C4_rate_limit_precedence_amended : ∀ (url text : String),
    containsAny text RATE_LIMIT_PATTERNS = true →
    check_page_result url text = ClaimStatus.rate_limited ∧
    postCaptchaFailureStatus text = ClaimStatus.rate_limited := by
  intro url text hr
  constructor
  · unfold check_page_result
    simp [hr]
  · unfold postCaptchaFailureStatus
    simp [hr]

/-- Witness for the amended C4: concrete rate-limit text dominates a
simultaneously present success pattern in the final classifier. -/
theorem C4_rate_limit_precedence_amended_witness :
    containsAny "thank you. wait 24 hours" RATE_LIMIT_PATTERNS = true ∧
    check_page_result "https://u" "thank you. wait 24 hours" = ClaimStatus.rate_limited ∧
    postCaptchaFailureStatus "thank you. wait 24 hours" = ClaimStatus.rate_limited :=
  ⟨by decide,
   (C4_rate_limit_precedence_amended "https://u" "thank you. wait 24 hours" (by decide)).1,
   (C4_rate_limit_precedence_amended "https://u" "thank you. wait 24 hours" (by decide)).2⟩

/-- C6: Session.is_valid is true exactly when the access token is non-empty,
the stored expiry is non-empty, and the parsed expiry puts the current time
strictly before expiry minus the 5-minute (300 s) buffer; hence it is false
whenever the token is empty, or the expiry is empty or unparsable, or now is
at or past expiry minus the buffer. -/
theorem C6_is_valid_characterisation :
    ∀ (parse : String → Option Int) (now : Int) (s : Session),
    Session.is_valid parse now s = true ↔
      s.access_token ≠ "" ∧ s.expires_at ≠ "" ∧
      ∃ expires, parse (s.expires_at.replace "Z" "+00:00") = some expires ∧
        now < expires - 300 := by
  intro parse now s
  unfold Session.is_valid
  by_cases ha : s.access_token = ""
  · simp [ha]
  by_cases he : s.expires_at = ""
  · simp [ha, he]
  rcases hp : parse (s.expires_at.replace "Z" "+00:00") with _ | expires
  · simp [ha, he, hp]
  · simp [ha, he, hp]

/-- Witness for C6: a session with a token and a parsable future expiry is
valid; dropping the token, emptying the expiry, or moving now past the
buffered expiry each invalidate it. -/
theorem C6_is_valid_characterisation_witness :
    Session.is_valid (fun _ => some 1000) 0
      { access_token := "tok", expires_at := "2099-01-01" } = true ∧
    Session.is_valid (fun _ => some 1000) 0
      { access_token := "", expires_at := "2099-01-01" } = false ∧
    Session.is_valid (fun _ => some 1000) 700
      { access_token := "tok", expires_at := "2099-01-01" } = false :=
  ⟨(C6_is_valid_characterisation (fun _ => some 1000) 0
      { access_token := "tok", expires_at := "2099-01-01" }).mpr
      ⟨by decide, by decide, 1000, rfl, by decide⟩,
   by decide, by decide⟩

/-- C8: one offer's claim processing always yields one of the four ClaimStatus
values; an exception escaping the browser flow is caught at the
_claim_via_playwright boundary and mapped to Failed, and an exception raised
during ownership verification is caught inside claim_game and mapped to
Failed — nothing propagates to the orchestrator. -/
theorem C8_state_machine_exception_boundary :
    ∀ (env : FlowEnv) (cf : Nat) (ownedAt : Nat → Except String Bool),
    (claim_game env cf ownedAt = ClaimStatus.claimed ∨
     claim_game env cf ownedAt = ClaimStatus.already_owned ∨
     claim_game env cf ownedAt = ClaimStatus.failed ∨
     claim_game env cf ownedAt = ClaimStatus.rate_limited) ∧
    (∀ e, flowBody env cf = Except.error e →
       claim_via_playwright env cf = ClaimStatus.failed) ∧
    (∀ e, verifyGo ownedAt 1 10 = Except.error e →
       claim_via_playwright env cf = ClaimStatus.claimed →
       claim_game env cf ownedAt = ClaimStatus.failed) := by
  intro env cf ownedAt
  refine ⟨?_, ?_, ?_⟩
  · rcases h : claim_game env cf ownedAt with _ | _ | _ | _
    · exact Or.inl rfl
    · exact Or.inr (Or.inl rfl)
    · exact Or.inr (Or.inr (Or.inl rfl))
    · exact Or.inr (Or.inr (Or.inr rfl))
  · intro e he
    unfold claim_via_playwright
    rw [he]
  · intro e he hc
    simp [claim_game, hc, he]

/-- Witness for C8: a flow whose first navigation raises is mapped to Failed
at the boundary; a verification fetch that raises demotes a Claimed flow to
Failed. -/
theorem C8_state_machine_exception_boundary_witness :
    flowBody c8Env 5 = Except.error "TimeoutError: navigation" ∧
    claim_via_playwright c8Env 5 = ClaimStatus.failed ∧
    claim_game c2Env 5 (fun _ => Except.error "HTTPError") = ClaimStatus.failed :=
  ⟨rfl,
   (C8_state_machine_exception_boundary c8Env 5 (fun _ => Except.ok false)).2.1
     "TimeoutError: navigation" rfl,
   (C8_state_machine_exception_boundary c2Env 5 (fun _ => Except.error "HTTPError")).2.2
     "HTTPError" rfl (by decide)⟩

/-- C10: serialising a Session with to_dict and reading it back with
from_dict reconstructs the session field for field. -/
theorem C10_session_dict_roundtrip : ∀ (s : Session),
    Session.from_dict (Session.to_dict s) = s := fun _ => rfl

/-- The first trace record of a claim-loop run carries the session the loop
was entered with. -/
theorem claimLoop_head_sessionBefore :
    ∀ (env : OrchEnv) (sess : Session) (gs : List Game) (i : Nat) (res r : ClaimResult)
      (st : OfferStep) (rest : List OfferStep),
    claimLoop env sess gs i res = (r, st :: rest) → st.sessionBefore = sess := by
  intro env sess gs i res r st rest h
  cases gs with
  | nil =>
    simp [claimLoop] at h
  | cons g tl =>
    cases ho : env.outcome i <;>
      simp only [claimLoop, ho, Prod.mk.injEq, List.cons.injEq] at h <;>
      obtain ⟨-, h2, -⟩ := h <;>
      rw [← h2]

/-- Unfolding of the claim loop on a claimed offer. -/
theorem claimLoop_cons_claimed :
    ∀ (env : OrchEnv) (sess : Session) (g : Game) (tl : List Game) (i : Nat)
      (res : ClaimResult),
    env.outcome i = ClaimStatus.claimed →
    ∃ r1 steps1,
      claimLoop env sess tl (i + 1)
        { res with games_processed := res.games_processed ++ [g.title], claimed := res.claimed + 1 }
        = (r1, steps1) ∧
      claimLoop env sess (g :: tl) i res =
        (r1, { title := g.title, status := ClaimStatus.claimed, saves := []
             , sessionBefore := sess, sessionAfter := sess } :: steps1) := by
  intro env sess g tl i res ho
  refine ⟨_, _, rfl, ?_⟩
  conv_lhs => rw [claimLoop]
  rw [ho]

/-- Unfolding of the claim loop on an already-owned offer. -/
theorem claimLoop_cons_already_owned :
    ∀ (env : OrchEnv) (sess : Session) (g : Game) (tl : List Game) (i : Nat)
      (res : ClaimResult),
    env.outcome i = ClaimStatus.already_owned →
    ∃ r1 steps1,
      claimLoop env sess tl (i + 1)
        { res with games_processed := res.games_processed ++ [g.title], already_owned := res.already_owned + 1 }
        = (r1, steps1) ∧
      claimLoop env sess (g :: tl) i res =
        (r1, { title := g.title, status := ClaimStatus.already_owned, saves := []
             , sessionBefore := sess, sessionAfter := sess } :: steps1) := by
  intro env sess g tl i res ho
  refine ⟨_, _, rfl, ?_⟩
  conv_lhs => rw [claimLoop]
  rw [ho]

/-- Unfolding of the claim loop on a rate-limited offer: it stops. -/
theorem claimLoop_cons_rate_limited :
    ∀ (env : OrchEnv) (sess : Session) (g : Game) (tl : List Game) (i : Nat)
      (res : ClaimResult),
    env.outcome i = ClaimStatus.rate_limited →
    claimLoop env sess (g :: tl) i res =
      ({ res with games_processed := res.games_processed ++ [g.title], failed := res.failed + 1 },
       [{ title := g.title, status := ClaimStatus.rate_limited, saves := []
        , sessionBefore := sess, sessionAfter := sess }]) := by
  intro env sess g tl i res ho
  conv_lhs => rw [claimLoop]
  rw [ho]

/-- Unfolding of the claim loop on a failed offer: a refreshable session is
refreshed when the oracle provides a new one, which is saved and becomes the
session for the rest of the run. -/
theorem claimLoop_cons_failed :
    ∀ (env : OrchEnv) (sess : Session) (g : Game) (tl : List Game) (i : Nat)
      (res : ClaimResult),
    env.outcome i = ClaimStatus.failed →
    ∃ r1 steps1,
      claimLoop env
        (if Session.can_refresh env.parse env.now sess
          then (env.refreshResult i).getD sess else sess) tl (i + 1)
        { res with games_processed := res.games_processed ++ [g.title], failed := res.failed + 1 }
        = (r1, steps1) ∧
      claimLoop env sess (g :: tl) i res =
        (r1, { title := g.title, status := ClaimStatus.failed
             , saves := (if Session.can_refresh env.parse env.now sess
                          then (env.refreshResult i).toList else [])
             , sessionBefore := sess
             , sessionAfter := (if Session.can_refresh env.parse env.now sess
                                 then (env.refreshResult i).getD sess else sess) }
             :: steps1) := by
  intro env sess g tl i res ho
  refine ⟨_, _, rfl, ?_⟩
  conv_lhs => rw [claimLoop]
  rw [ho]

/-- Bookkeeping invariant of the claim loop: the three counters grow together
by exactly the number of trace records, games_processed extends by the titles
of the trace, and the trace titles are the titles of the prefix of offers the
loop consumed. -/
theorem claimLoop_counts_spec :
    ∀ (env : OrchEnv) (gs : List Game) (i : Nat) (sess : Session) (res r : ClaimResult)
      (steps : List OfferStep),
    claimLoop env sess gs i res = (r, steps) →
    r.claimed + r.failed + r.already_owned
        = res.claimed + res.failed + res.already_owned + steps.length ∧
    r.games_processed = res.games_processed ++ steps.map OfferStep.title ∧
    steps.map OfferStep.title = (gs.take steps.length).map Game.title ∧
    steps.length ≤ gs.length := by
  intro env gs
  induction gs with
  | nil =>
    intro i sess res r steps h
    simp only [claimLoop, Prod.mk.injEq] at h
    obtain ⟨h1, h2⟩ := h
    subst h1
    subst h2
    simp
  | cons g tl ih =>
    intro i sess res r steps h
    cases ho : env.outcome i
    case claimed =>
      obtain ⟨r1, steps1, hrec, hstep⟩ := claimLoop_cons_claimed env sess g tl i res ho
      rw [hstep] at h
      simp only [Prod.mk.injEq] at h
      obtain ⟨h1, h2⟩ := h
      subst h1
      subst h2
      obtain ⟨k1, k2, k3, k4⟩ := ih (i + 1) sess _ r1 steps1 hrec
      have k1x : r1.claimed + r1.failed + r1.already_owned
          = (res.claimed + 1) + res.failed + res.already_owned + steps1.length := k1
      have k2x : r1.games_processed
          = (res.games_processed ++ [g.title]) ++ steps1.map OfferStep.title := k2
      refine ⟨?_, ?_, ?_, ?_⟩
      · simp only [List.length_cons]
        omega
      · rw [k2x]
        simp
      · simp only [List.map_cons, List.length_cons, List.take_succ_cons]
        rw [k3]
      · simp only [List.length_cons]
        omega
    case already_owned =>
      obtain ⟨r1, steps1, hrec, hstep⟩ := claimLoop_cons_already_owned env sess g tl i res ho
      rw [hstep] at h
      simp only [Prod.mk.injEq] at h
      obtain ⟨h1, h2⟩ := h
      subst h1
      subst h2
      obtain ⟨k1, k2, k3, k4⟩ := ih (i + 1) sess _ r1 steps1 hrec
      have k1x : r1.claimed + r1.failed + r1.already_owned
          = res.claimed + res.failed + (res.already_owned + 1) + steps1.length := k1
      have k2x : r1.games_processed
          = (res.games_processed ++ [g.title]) ++ steps1.map OfferStep.title := k2
      refine ⟨?_, ?_, ?_, ?_⟩
      · simp only [List.length_cons]
        omega
      · rw [k2x]
        simp
      · simp only [List.map_cons, List.length_cons, List.take_succ_cons]
        rw [k3]
      · simp only [List.length_cons]
        omega
    case failed =>
      obtain ⟨r1, steps1, hrec, hstep⟩ := claimLoop_cons_failed env sess g tl i res ho
      rw [hstep] at h
      simp only [Prod.mk.injEq] at h
      obtain ⟨h1, h2⟩ := h
      subst h1
      subst h2
      obtain ⟨k1, k2, k3, k4⟩ := ih (i + 1) _ _ r1 steps1 hrec
      have k1x : r1.claimed + r1.failed + r1.already_owned
          = res.claimed + (res.failed + 1) + res.already_owned + steps1.length := k1
      have k2x : r1.games_processed
          = (res.games_processed ++ [g.title]) ++ steps1.map OfferStep.title := k2
      refine ⟨?_, ?_, ?_, ?_⟩
      · simp only [List.length_cons]
        omega
      · rw [k2x]
        simp
      · simp only [List.map_cons, List.length_cons, List.take_succ_cons]
        rw [k3]
      · simp only [List.length_cons]
        omega
    case rate_limited =>
      rw [claimLoop_cons_rate_limited env sess g tl i res ho] at h
      simp only [Prod.mk.injEq] at h
      obtain ⟨h1, h2⟩ := h
      subst h1
      subst h2
      refine ⟨?_, ?_, ?_, ?_⟩
      · simp
        omega
      · simp
      · simp
      · simp

/-- Per-record characterisation of the claim loop trace: the j-th record is
the j-th offer of the list with the status the state machine returned for it;
its saves are exactly one save of the refreshed session when the status is
Failed, the session in effect can refresh and the refresh succeeds (and no
save otherwise); and the following record (if any) starts from this record's
resulting session. -/
theorem claimLoop_step_spec :
    ∀ (env : OrchEnv) (gs : List Game) (i : Nat) (sess : Session) (res r : ClaimResult)
      (steps : List OfferStep) (j : Nat) (st : OfferStep),
    claimLoop env sess gs i res = (r, steps) →
    steps.get? j = some st →
    st.status = env.outcome (i + j) ∧
    (∃ g, gs.get? j = some g ∧ st.title = g.title) ∧
    st.saves = (if st.status = ClaimStatus.failed
                  ∧ Session.can_refresh env.parse env.now st.sessionBefore = true
                then (env.refreshResult (i + j)).toList else []) ∧
    st.sessionAfter = (if st.status = ClaimStatus.failed
                  ∧ Session.can_refresh env.parse env.now st.sessionBefore = true
                then (env.refreshResult (i + j)).getD st.sessionBefore
                else st.sessionBefore) ∧
    (∀ st2, steps.get? (j + 1) = some st2 → st2.sessionBefore = st.sessionAfter) := by
  intro env gs
  induction gs with
  | nil =>
    intro i sess res r steps j st h hj
    simp only [claimLoop, Prod.mk.injEq] at h
    obtain ⟨h1, h2⟩ := h
    subst h2
    simp at hj
  | cons g tl ih =>
    intro i sess res r steps j st h hj
    cases ho : env.outcome i
    case claimed =>
      obtain ⟨r1, steps1, hrec, hstep⟩ := claimLoop_cons_claimed env sess g tl i res ho
      rw [hstep] at h
      simp only [Prod.mk.injEq] at h
      obtain ⟨h1, h2⟩ := h
      subst h1
      subst h2
      cases j with
      | zero =>
        simp only [List.get?_cons_zero, Option.some.injEq] at hj
        subst hj
        refine ⟨?_, ⟨g, rfl, rfl⟩, ?_, ?_, ?_⟩
        · show ClaimStatus.claimed = env.outcome (i + 0)
          rw [Nat.add_zero, ho]
        · simp
        · simp
        · intro st2 h2
          simp only [List.get?_cons_succ, List.get?_cons_zero] at h2
          cases hs1 : steps1 with
          | nil =>
            rw [hs1] at h2
            simp at h2
          | cons a rest =>
            rw [hs1] at h2
            simp only [List.get?_cons_zero, Option.some.injEq] at h2
            subst h2
            rw [hs1] at hrec
            exact claimLoop_head_sessionBefore env sess tl (i + 1) _ r1 _ rest hrec
      | succ j2 =>
        simp only [List.get?_cons_succ] at hj
        obtain ⟨c1, c2, c3, c4, c5⟩ := ih (i + 1) sess _ r1 steps1 j2 st hrec hj
        refine ⟨?_, ?_, ?_, ?_, ?_⟩
        · rw [show i + (j2 + 1) = i + 1 + j2 by omega]
          exact c1
        · obtain ⟨g2, hg2, ht2⟩ := c2
          exact ⟨g2, by simpa using hg2, ht2⟩
        · rw [show i + (j2 + 1) = i + 1 + j2 by omega]
          exact c3
        · rw [show i + (j2 + 1) = i + 1 + j2 by omega]
          exact c4
        · intro st2 h2
          simp only [List.get?_cons_succ] at h2
          exact c5 st2 h2
    case already_owned =>
      obtain ⟨r1, steps1, hrec, hstep⟩ := claimLoop_cons_already_owned env sess g tl i res ho
      rw [hstep] at h
      simp only [Prod.mk.injEq] at h
      obtain ⟨h1, h2⟩ := h
      subst h1
      subst h2
      cases j with
      | zero =>
        simp only [List.get?_cons_zero, Option.some.injEq] at hj
        subst hj
        refine ⟨?_, ⟨g, rfl, rfl⟩, ?_, ?_, ?_⟩
        · show ClaimStatus.already_owned = env.outcome (i + 0)
          rw [Nat.add_zero, ho]
        · simp
        · simp
        · intro st2 h2
          simp only [List.get?_cons_succ, List.get?_cons_zero] at h2
          cases hs1 : steps1 with
          | nil =>
            rw [hs1] at h2
            simp at h2
          | cons a rest =>
            rw [hs1] at h2
            simp only [List.get?_cons_zero, Option.some.injEq] at h2
            subst h2
            rw [hs1] at hrec
            exact claimLoop_head_sessionBefore env sess tl (i + 1) _ r1 _ rest hrec
      | succ j2 =>
        simp only [List.get?_cons_succ] at hj
        obtain ⟨c1, c2, c3, c4, c5⟩ := ih (i + 1) sess _ r1 steps1 j2 st hrec hj
        refine ⟨?_, ?_, ?_, ?_, ?_⟩
        · rw [show i + (j2 + 1) = i + 1 + j2 by omega]
          exact c1
        · obtain ⟨g2, hg2, ht2⟩ := c2
          exact ⟨g2, by simpa using hg2, ht2⟩
        · rw [show i + (j2 + 1) = i + 1 + j2 by omega]
          exact c3
        · rw [show i + (j2 + 1) = i + 1 + j2 by omega]
          exact c4
        · intro st2 h2
          simp only [List.get?_cons_succ] at h2
          exact c5 st2 h2
    case failed =>
      obtain ⟨r1, steps1, hrec, hstep⟩ := claimLoop_cons_failed env sess g tl i res ho
      rw [hstep] at h
      simp only [Prod.mk.injEq] at h
      obtain ⟨h1, h2⟩ := h
      subst h1
      subst h2
      cases j with
      | zero =>
        simp only [List.get?_cons_zero, Option.some.injEq] at hj
        subst hj
        refine ⟨?_, ⟨g, rfl, rfl⟩, ?_, ?_, ?_⟩
        · show ClaimStatus.failed = env.outcome (i + 0)
          rw [Nat.add_zero, ho]
        · by_cases hc : Session.can_refresh env.parse env.now sess = true
          · simp [hc]
          · simp [hc]
        · by_cases hc : Session.can_refresh env.parse env.now sess = true
          · simp [hc]
          · simp [hc]
        · intro st2 h2
          simp only [List.get?_cons_succ, List.get?_cons_zero] at h2
          cases hs1 : steps1 with
          | nil =>
            rw [hs1] at h2
            simp at h2
          | cons a rest =>
            rw [hs1] at h2
            simp only [List.get?_cons_zero, Option.some.injEq] at h2
            subst h2
            rw [hs1] at hrec
            exact claimLoop_head_sessionBefore env _ tl (i + 1) _ r1 _ rest hrec
      | succ j2 =>
        simp only [List.get?_cons_succ] at hj
        obtain ⟨c1, c2, c3, c4, c5⟩ := ih (i + 1) _ _ r1 steps1 j2 st hrec hj
        refine ⟨?_, ?_, ?_, ?_, ?_⟩
        · rw [show i + (j2 + 1) = i + 1 + j2 by omega]
          exact c1
        · obtain ⟨g2, hg2, ht2⟩ := c2
          exact ⟨g2, by simpa using hg2, ht2⟩
        · rw [show i + (j2 + 1) = i + 1 + j2 by omega]
          exact c3
        · rw [show i + (j2 + 1) = i + 1 + j2 by omega]
          exact c4
        · intro st2 h2
          simp only [List.get?_cons_succ] at h2
          exact c5 st2 h2
    case rate_limited =>
      rw [claimLoop_cons_rate_limited env sess g tl i res ho] at h
      simp only [Prod.mk.injEq] at h
      obtain ⟨h1, h2⟩ := h
      subst h1
      subst h2
      cases j with
      | zero =>
        simp only [List.get?_cons_zero, Option.some.injEq] at hj
        subst hj
        refine ⟨?_, ⟨g, rfl, rfl⟩, ?_, ?_, ?_⟩
        · show ClaimStatus.rate_limited = env.outcome (i + 0)
          rw [Nat.add_zero, ho]
        · simp
        · simp
        · intro st2 h2
          simp at h2
      | succ j2 =>
        simp at hj

/-- Abort behaviour of the claim loop: when the j-th trace record is
rate-limited, the trace stops exactly there (length j+1), and the failed
counter equals the entering count plus one per FAILED offer before j plus one
for the rate-limited offer itself. -/
theorem claimLoop_rl_spec :
    ∀ (env : OrchEnv) (gs : List Game) (i : Nat) (sess : Session) (res r : ClaimResult)
      (steps : List OfferStep) (j : Nat) (st : OfferStep),
    claimLoop env sess gs i res = (r, steps) →
    steps.get? j = some st →
    st.status = ClaimStatus.rate_limited →
    steps.length = j + 1 ∧ r.failed = res.failed + countFailed env i j + 1 := by
  intro env gs
  induction gs with
  | nil =>
    intro i sess res r steps j st h hj hst
    simp only [claimLoop, Prod.mk.injEq] at h
    obtain ⟨h1, h2⟩ := h
    subst h2
    simp at hj
  | cons g tl ih =>
    intro i sess res r steps j st h hj hst
    cases ho : env.outcome i
    case claimed =>
      obtain ⟨r1, steps1, hrec, hstep⟩ := claimLoop_cons_claimed env sess g tl i res ho
      rw [hstep] at h
      simp only [Prod.mk.injEq] at h
      obtain ⟨h1, h2⟩ := h
      subst h1
      subst h2
      cases j with
      | zero =>
        simp only [List.get?_cons_zero, Option.some.injEq] at hj
        subst hj
        simp at hst
      | succ j2 =>
        simp only [List.get?_cons_succ] at hj
        obtain ⟨L, F⟩ := ih (i + 1) sess _ r1 steps1 j2 st hrec hj hst
        have Fx : r1.failed = res.failed + countFailed env (i + 1) j2 + 1 := F
        constructor
        · simp only [List.length_cons, L]
        · simp only [countFailed, ho]
          rw [if_neg (by decide)]
          omega
    case already_owned =>
      obtain ⟨r1, steps1, hrec, hstep⟩ := claimLoop_cons_already_owned env sess g tl i res ho
      rw [hstep] at h
      simp only [Prod.mk.injEq] at h
      obtain ⟨h1, h2⟩ := h
      subst h1
      subst h2
      cases j with
      | zero =>
        simp only [List.get?_cons_zero, Option.some.injEq] at hj
        subst hj
        simp at hst
      | succ j2 =>
        simp only [List.get?_cons_succ] at hj
        obtain ⟨L, F⟩ := ih (i + 1) sess _ r1 steps1 j2 st hrec hj hst
        have Fx : r1.failed = res.failed + countFailed env (i + 1) j2 + 1 := F
        constructor
        · simp only [List.length_cons, L]
        · simp only [countFailed, ho]
          rw [if_neg (by decide)]
          omega
    case failed =>
      obtain ⟨r1, steps1, hrec, hstep⟩ := claimLoop_cons_failed env sess g tl i res ho
      rw [hstep] at h
      simp only [Prod.mk.injEq] at h
      obtain ⟨h1, h2⟩ := h
      subst h1
      subst h2
      cases j with
      | zero =>
        simp only [List.get?_cons_zero, Option.some.injEq] at hj
        subst hj
        simp at hst
      | succ j2 =>
        simp only [List.get?_cons_succ] at hj
        obtain ⟨L, F⟩ := ih (i + 1) _ _ r1 steps1 j2 st hrec hj hst
        have Fx : r1.failed = (res.failed + 1) + countFailed env (i + 1) j2 + 1 := F
        constructor
        · simp only [List.length_cons, L]
        · simp only [countFailed, ho]
          simp only [if_true]
          omega
    case rate_limited =>
      rw [claimLoop_cons_rate_limited env sess g tl i res ho] at h
      simp only [Prod.mk.injEq] at h
      obtain ⟨h1, h2⟩ := h
      subst h1
      subst h2
      cases j with
      | zero =>
        constructor
        · simp
        · show res.failed + 1 = res.failed + countFailed env i 0 + 1
          simp only [countFailed]
      | succ j2 =>
        simp at hj

/-- Unfolding of claim_all_games without a session. -/
theorem claim_all_games_none (env : OrchEnv) :
    claim_all_games env none = ({}, []) := rfl

/-- Unfolding of claim_all_games with a session but no claimable offers. -/
theorem claim_all_games_some_nil (env : OrchEnv) (s : Session)
    (hc : env.claimable = []) : claim_all_games env (some s) = ({}, []) := by
  show (match env.claimable with
        | [] => (({} : ClaimResult), ([] : List OfferStep))
        | g :: rest => claimLoop env s (g :: rest) 0 {}) = ({}, [])
  rw [hc]

/-- Unfolding of claim_all_games with a session and claimable offers. -/
theorem claim_all_games_some_cons (env : OrchEnv) (s : Session) (g : Game)
    (tl : List Game) (hc : env.claimable = g :: tl) :
    claim_all_games env (some s) = claimLoop env s (g :: tl) 0 {} := by
  show (match env.claimable with
        | [] => (({} : ClaimResult), ([] : List OfferStep))
        | g2 :: rest => claimLoop env s (g2 :: rest) 0 {}) = claimLoop env s (g :: tl) 0 {}
  rw [hc]

/-- C9: after every completed run, claimed + failed + already_owned equals the
number of processed titles; games_processed lists exactly the titles of the
attempted offers (one trace record each), which form a prefix of the
claimable list in input order. -/
theorem C9_counts_match_processed_titles :
    ∀ (env : OrchEnv) (sessOpt : Option Session) (r : ClaimResult)
      (steps : List OfferStep),
    claim_all_games env sessOpt = (r, steps) →
    r.claimed + r.failed + r.already_owned = r.games_processed.length ∧
    r.games_processed = steps.map OfferStep.title ∧
    steps.map OfferStep.title = (env.claimable.take steps.length).map Game.title := by
  intro env so r steps h
  cases so with
  | none =>
    rw [claim_all_games_none env] at h
    simp only [Prod.mk.injEq] at h
    obtain ⟨h1, h2⟩ := h
    subst h1
    subst h2
    simp
  | some s =>
    cases hc : env.claimable with
    | nil =>
      rw [claim_all_games_some_nil env s hc] at h
      simp only [Prod.mk.injEq] at h
      obtain ⟨h1, h2⟩ := h
      subst h1
      subst h2
      simp [hc]
    | cons g tl =>
      rw [claim_all_games_some_cons env s g tl hc] at h
      obtain ⟨k1, k2, k3, k4⟩ := claimLoop_counts_spec env (g :: tl) 0 s {} r steps h
      have k1x : r.claimed + r.failed + r.already_owned = 0 + 0 + 0 + steps.length := k1
      have k2x : r.games_processed = [] ++ steps.map OfferStep.title := k2
      have hlen : r.games_processed.length = steps.length := by
        rw [k2x]
        simp
      refine ⟨?_, ?_, ?_⟩
      · omega
      · rw [k2x]
        simp
      · exact k3

/-- Witness for C9: in the two-offer run with one claimed and one already
owned, the counters sum to the two processed titles, in input order. -/
theorem C9_counts_match_processed_titles_witness :
    c9Res.claimed + c9Res.failed + c9Res.already_owned = c9Res.games_processed.length ∧
    c9Res.games_processed = c9Steps.map OfferStep.title ∧
    c9Steps.map OfferStep.title = (c9Env.claimable.take c9Steps.length).map Game.title :=
  C9_counts_match_processed_titles c9Env (some {}) c9Res c9Steps rfl

/-- C1: if some attempted offer comes back RateLimited, the trace stops at
that offer (no later offer is ever attempted, hence the state machine is not
invoked for it), the attempted offers are exactly the claimable prefix up to
and including the rate-limited one, and the failed counter counts the FAILED
offers before it plus one for the rate-limited offer itself. -/
theorem C1_rate_limited_aborts_queue :
    ∀ (env : OrchEnv) (s : Session) (r : ClaimResult) (steps : List OfferStep)
      (j : Nat) (st : OfferStep),
    claim_all_games env (some s) = (r, steps) →
    steps.get? j = some st →
    st.status = ClaimStatus.rate_limited →
    steps.length = j + 1 ∧
    steps.map OfferStep.title = (env.claimable.take (j + 1)).map Game.title ∧
    r.failed = countFailed env 0 j + 1 := by
  intro env s r steps j st h hj hst
  cases hc : env.claimable with
  | nil =>
    rw [claim_all_games_some_nil env s hc] at h
    simp only [Prod.mk.injEq] at h
    obtain ⟨h1, h2⟩ := h
    subst h2
    simp at hj
  | cons g tl =>
    rw [claim_all_games_some_cons env s g tl hc] at h
    obtain ⟨L, F⟩ := claimLoop_rl_spec env (g :: tl) 0 s {} r steps j st h hj hst
    obtain ⟨k1, k2, k3, k4⟩ := claimLoop_counts_spec env (g :: tl) 0 s {} r steps h
    refine ⟨L, ?_, ?_⟩
    · rw [← L]
      exact k3
    · have Fx : r.failed = 0 + countFailed env 0 j + 1 := F
      omega

/-- Witness for C1 (Scenario C): two claimable offers, the first comes back
RateLimited — the run ends with failed = 1, only the first title processed,
and the second offer never attempted. -/
theorem C1_rate_limited_aborts_queue_witness :
    claim_all_games c1Env (some {}) = (c1Res, [c1St]) ∧
    [c1St].length = 0 + 1 ∧
    [c1St].map OfferStep.title = (c1Env.claimable.take (0 + 1)).map Game.title ∧
    c1Res.failed = countFailed c1Env 0 0 + 1 :=
  ⟨rfl,
   (C1_rate_limited_aborts_queue c1Env {} c1Res [c1St] 0 c1St rfl rfl rfl).1,
   (C1_rate_limited_aborts_queue c1Env {} c1Res [c1St] 0 c1St rfl rfl rfl).2.1,
   (C1_rate_limited_aborts_queue c1Env {} c1Res [c1St] 0 c1St rfl rfl rfl).2.2⟩

/-- C7: when an attempted offer comes back Failed while the session in effect
can refresh and the refresh succeeds, that offer's trace record carries
exactly one session-store save, of the refreshed session; the refreshed
session is the one the next offer (if any) starts from; and the offer is the
j-th claimable offer, attempted exactly once at position j. -/
theorem C7_failed_offer_refreshes_and_saves_once :
    ∀ (env : OrchEnv) (s : Session) (r : ClaimResult) (steps : List OfferStep)
      (j : Nat) (st : OfferStep) (s2 : Session),
    claim_all_games env (some s) = (r, steps) →
    steps.get? j = some st →
    st.status = ClaimStatus.failed →
    Session.can_refresh env.parse env.now st.sessionBefore = true →
    env.refreshResult j = some s2 →
    st.saves = [s2] ∧
    st.sessionAfter = s2 ∧
    (∃ g, env.claimable.get? j = some g ∧ st.title = g.title) ∧
    (∀ st2, steps.get? (j + 1) = some st2 → st2.sessionBefore = s2) := by
  intro env s r steps j st s2 h hj hst hcr hrf
  cases hc : env.claimable with
  | nil =>
    rw [claim_all_games_some_nil env s hc] at h
    simp only [Prod.mk.injEq] at h
    obtain ⟨h1, h2⟩ := h
    subst h2
    simp at hj
  | cons g tl =>
    rw [claim_all_games_some_cons env s g tl hc] at h
    obtain ⟨c1, c2, c3, c4, c5⟩ := claimLoop_step_spec env (g :: tl) 0 s {} r steps j st h hj
    rw [if_pos ⟨hst, hcr⟩] at c3 c4
    simp only [Nat.zero_add] at c3 c4
    rw [hrf] at c3 c4
    refine ⟨?_, ?_, ?_, ?_⟩
    · rw [c3]
      rfl
    · rw [c4]
      rfl
    · obtain ⟨g2, hg2, ht⟩ := c2
      exact ⟨g2, hg2, ht⟩
    · intro st2 h2
      rw [c5 st2 h2, c4]
      rfl

/-- Witness for C7 (Scenario D): the first offer fails, the session is
refreshable, the refresh succeeds — save is invoked exactly once with the
new session, and the second offer runs under it. -/
theorem C7_failed_offer_refreshes_and_saves_once_witness :
    claim_all_games c7Env (some c7Sess) = (c7Res, [c7St0, c7St1]) ∧
    c7St0.saves = [c7NewSess] ∧
    c7St0.sessionAfter = c7NewSess ∧
    c7St1.sessionBefore = c7NewSess :=
  ⟨rfl,
   (C7_failed_offer_refreshes_and_saves_once c7Env c7Sess c7Res [c7St0, c7St1]
     0 c7St0 c7NewSess rfl rfl rfl (by decide) rfl).1,
   (C7_failed_offer_refreshes_and_saves_once c7Env c7Sess c7Res [c7St0, c7St1]
     0 c7St0 c7NewSess rfl rfl rfl (by decide) rfl).2.1,
   (C7_failed_offer_refreshes_and_saves_once c7Env c7Sess c7Res [c7St0, c7St1]
     0 c7St0 c7NewSess rfl rfl rfl (by decide) rfl).2.2.2 c7St1 rfl⟩

/-- Counterexample to C5: claim_all_games only rejects an absent session
(None); a present but unusable session — here one whose expiry string is
empty, so is_valid is false — is not rejected at entry: the loop still runs,
the state machine is invoked for the offer, and the result is not the zeroed
ClaimResult. -/
theorem C5_counterexample :
    Session.is_valid c5Env.parse c5Env.now c5Sess = false ∧
    claim_all_games c5Env (some c5Sess)
      = ({ claimed := 1, failed := 0, already_owned := 0, games_processed := ["Game A"] },
         [{ title := "Game A", status := ClaimStatus.claimed, saves := []
          , sessionBefore := c5Sess, sessionAfter := c5Sess }]) ∧
    (claim_all_games c5Env (some c5Sess)).2 ≠ [] ∧
    (claim_all_games c5Env (some c5Sess)).1.claimed ≠ 0 := by
  refine ⟨rfl, rfl, ?_, ?_⟩
  · decide
  · decide

/-- C5 (amended): claim_all_games returns the zeroed ClaimResult without
invoking the state machine when no session is present, or when there are no
claimable offers; usability of a present session is not checked at entry. -/
theorem C5_empty_result_guards_amended :
    ∀ (env : OrchEnv),
    claim_all_games env none = ({}, []) ∧
    (∀ s : Session, env.claimable = [] → claim_all_games env (some s) = ({}, [])) := by
  intro env
  refine ⟨rfl, ?_⟩
  intro s hc
  exact claim_all_games_some_nil env s hc

/-- Witness for the amended C5: with no claimable offers, both the absent and
the present-session runs return the zeroed result with an empty trace. -/
theorem C5_empty_result_guards_amended_witness :
    claim_all_games c5EmptyEnv none = ({}, []) ∧
    claim_all_games c5EmptyEnv (some c5Sess) = ({}, []) :=
  ⟨(C5_empty_result_guards_amended c5EmptyEnv).1,
   (C5_empty_result_guards_amended c5EmptyEnv).2 c5Sess rfl⟩
